import Mathlib

/-!
# Verification of the API authorization pipeline and error model

A shallow embedding of the TypeScript sources of this repository
(`src/api/src/framework/errors/clientError.ts`,
`src/api/src/host/routing/router.ts`, the `ErrorCodes` constants file) and,
for the components whose implementation files are not part of the sources
given (ClaimsCache, IssuerMetadata, the Authorizer pipeline), models built
from the specification, marked `Modelled from the spec:` in their doc
comments.
-/

/-! ## Error codes (from the ErrorCodes constants source file) -/

/-- A generic server error with no error translation. -/
def ErrorCodes.serverError : String := "server_error"

/-- A problem reading Open Id Connect metadata. -/
def ErrorCodes.metadataLookupFailure : String := "metadata_lookup_failure"

/-- A problem downloading token signing keys used for in memory token validation. -/
def ErrorCodes.signingKeyDownloadFailure : String := "signing_key_download"

/-- A problem reading claims from payloads. -/
def ErrorCodes.claimsFailure : String := "claims_failure"

/-- A company was requested that was not a number. -/
def ErrorCodes.invalidCompanyId : String := "invalid_company_id"

/-! ## ClientError (from clientError.ts) -/

/-- The state of a `ClientError` object from `clientError.ts`: the common
fields set in the constructor, the mutable log context, and the extra fields
for 500 errors, which the constructor initialises to `0` / empty strings. -/
structure ClientError where
  statusCode : Nat
  errorCode : String
  message : String
  logContext : Option String
  area : String
  id : Int
  utcTime : String
  deriving DecidableEq

/-- The constructor `new ClientError(statusCode, errorCode, message)`:
sets the common fields and initialises the 5xx fields to their defaults. -/
def ClientError.create (statusCode : Nat) (errorCode : String) (message : String) :
    ClientError :=
  { statusCode := statusCode
    errorCode := errorCode
    message := message
    logContext := none
    area := ""
    id := 0
    utcTime := "" }

/-- `getStatusCode()` returns the `_statusCode` field. -/
def ClientError.getStatusCode (e : ClientError) : Nat :=
  e.statusCode

/-- The `LogContext` setter: stores additional data logged for support. -/
def ClientError.setLogContext (e : ClientError) (value : String) : ClientError :=
  { e with logContext := some value }

/-- `setExceptionDetails(area, id, utcTime)`: sets the extra fields returned
to the caller for 500 errors. -/
def ClientError.setExceptionDetails (e : ClientError)
    (area : String) (id : Int) (utcTime : String) : ClientError :=
  { e with area := area, id := id, utcTime := utcTime }

/-- The serialisable response body built by `toResponseFormat`: always
`code` and `message`; `id`, `area` and `utcTime` only when present. -/
structure ErrorResponseBody where
  code : String
  message : String
  id : Option Int
  area : Option String
  utcTime : Option String
  deriving DecidableEq

/-- `toResponseFormat()`: the body always holds `code` and `message`, and
additionally `id`, `area`, `utcTime` exactly when
`id > 0 && area.length > 0 && utcTime.length > 0`. -/
def ClientError.toResponseFormat (e : ClientError) : ErrorResponseBody :=
  if 0 < e.id ∧ 0 < e.area.length ∧ 0 < e.utcTime.length then
    { code := e.errorCode
      message := e.message
      id := some e.id
      area := some e.area
      utcTime := some e.utcTime }
  else
    { code := e.errorCode
      message := e.message
      id := none
      area := none
      utcTime := none }

/-! ## Company id validation (from Router.getCompanyTransactions) -/

/-- JavaScript `parseInt(s, 10)`: skip leading whitespace, read an optional
sign, then take the longest prefix of decimal digits; `none` models `NaN`
(no digits found); trailing characters such as a fraction part are
ignored, so the result is truncated toward zero. -/
def jsParseInt10 (s : String) : Option Int :=
  let cs := s.toList.dropWhile (fun c => c.isWhitespace)
  let signed : Bool × List Char :=
    match cs with
    | '-' :: rest => (true, rest)
    | '+' :: rest => (false, rest)
    | _ => (false, cs)
  let ds := signed.2.takeWhile (fun c => c.isDigit)
  if ds = [] then
    none
  else
    let n : Nat := ds.foldl (fun acc c => acc * 10 + (c.toNat - '0'.toNat)) 0
    some (if signed.1 then -(n : Int) else (n : Int))

/-- The error thrown by `Router.getCompanyTransactions` on an invalid id. -/
def invalidCompanyIdError : ClientError :=
  ClientError.create 400 ErrorCodes.invalidCompanyId
    "The company id must be a positive numeric integer"

/-- The observable outcome of `Router.getCompanyTransactions`: either the
thrown `ClientError` or success, together with the list of ids passed to
`CompanyService.getCompanyTransactions`. -/
structure CompanyTransactionsOutcome where
  result : Except ClientError Unit
  serviceCalls : List Int

/-- `Router.getCompanyTransactions`: parse `request.params.id` with
`parseInt(id, 10)`; if the result `isNaN` or `<= 0`, throw a 400
`invalid_company_id` `ClientError` before calling the company service;
otherwise pass the parsed id to the service. -/
def Router.getCompanyTransactions (idParam : String) : CompanyTransactionsOutcome :=
  match jsParseInt10 idParam with
  | none => { result := Except.error invalidCompanyIdError, serviceCalls := [] }
  | some id =>
      if id ≤ 0 then
        { result := Except.error invalidCompanyIdError, serviceCalls := [] }
      else
        { result := Except.ok (), serviceCalls := [id] }

/-! ## Claims data model (spec section 3) -/

/-- Modelled from the spec: `BaseClaims`, produced by the Authenticator
(whose source file is not among the sources given):
subject, scopes, expiry, issuer and audience. -/
structure BaseClaims where
  subject : String
  scopes : List String
  expiry : Nat
  issuer : String
  audience : String
  deriving DecidableEq

/-- Modelled from the spec: `CustomClaims`, the domain-specific claims
produced by the CustomClaimsProvider (source file not among the sources
given), e.g. the set of accessible resource identifiers. -/
structure CustomClaims where
  accessibleResources : List Nat
  deriving DecidableEq

/-- Modelled from the spec: `ClaimsPrincipal`, the combination of base and
custom claims that is cached and returned to the caller. -/
structure ClaimsPrincipal where
  base : BaseClaims
  custom : CustomClaims
  deriving DecidableEq

/-- A classified pipeline error carrying the HTTP status it maps to and
its error code from the `ErrorCodes` constants. -/
structure ApiError where
  statusCode : Nat
  errorCode : String
  deriving DecidableEq

/-- Modelled from the spec: a `CacheEntry` stored by the ClaimsCache
(source file not among the sources given): the principal plus the
instant at which the entry expires. -/
structure CacheEntry where
  principal : ClaimsPrincipal
  expiresAt : Nat
  deriving DecidableEq

/-- Cache keys are stable hashes of the raw token, modelled as strings. -/
abbrev TokenKey := String

/-- An identifier for one concurrent caller of the cache. -/
abbrev CallerId := Nat

/-- The outcome of one authenticate-plus-enrich computation. -/
abbrev ComputeResult := Except ApiError ClaimsPrincipal

/-! ## ClaimsCache (spec section 4.3)

Modelled from the spec: the ClaimsCache source file is not among the
sources given, only its construction and use in `router.ts`.  The cache is
embedded as a state machine: `getOrComputeArrive` is the event of one
caller entering `getOrCompute(tokenKey, computeFn)`, and `computeFinished`
is the event of the single in-flight computation for a key completing.
This splits each call into its two scheduling points, so that arbitrary
interleavings of concurrent callers can be expressed. -/

/-- Modelled from the spec: the state of the ClaimsCache.  `entries` holds
the completed live entries, `inflight` holds, per key, the callers waiting
on the single in-flight computation, `computeCount` counts how often the
compute function was started per key, and `delivered` records each result
handed back to a caller. -/
structure CacheState where
  entries : TokenKey → Option CacheEntry
  inflight : TokenKey → Option (List CallerId)
  computeCount : TokenKey → Nat
  delivered : List (CallerId × ComputeResult)

/-- The empty cache created by the `ClaimsCache` constructor. -/
def CacheState.init : CacheState :=
  { entries := fun _ => none
    inflight := fun _ => none
    computeCount := fun _ => 0
    delivered := [] }

/-- Modelled from the spec: a caller that finds no live entry either joins
the waiters of an existing in-flight computation for its key, or becomes
the single caller that starts the computation (single flight per key). -/
def CacheState.startOrJoin (st : CacheState) (c : CallerId) (k : TokenKey) :
    CacheState :=
  match st.inflight k with
  | some ws =>
      { st with inflight := fun q => if q = k then some (c :: ws) else st.inflight q }
  | none =>
      { st with
          inflight := fun q => if q = k then some [c] else st.inflight q
          computeCount := fun q => if q = k then st.computeCount q + 1 else st.computeCount q }

/-- Modelled from the spec: a caller enters `getOrCompute(tokenKey,
computeFn)` at time `now`.  A live entry (`now ≤ expiresAt`, so that an
entry is never returned after `now > expiry`) is returned immediately with
no recomputation; an expired entry is removed lazily and the caller then
starts or joins the single in-flight computation; with no entry the caller
starts or joins it directly. -/
def CacheState.getOrComputeArrive (st : CacheState) (c : CallerId) (k : TokenKey)
    (now : Nat) : CacheState :=
  match st.entries k with
  | some e =>
      if now ≤ e.expiresAt then
        { st with delivered := (c, Except.ok e.principal) :: st.delivered }
      else
        CacheState.startOrJoin
          { st with entries := fun q => if q = k then none else st.entries q } c k
  | none => CacheState.startOrJoin st c k

/-- Modelled from the spec: the single in-flight computation for key `k`
finishes with result `r`.  Every waiter receives exactly `r`; on success
the entry is stored with `expiresAt = principal.base.expiry`; on failure
nothing is cached, so the next caller recomputes from scratch. -/
def CacheState.computeFinished (st : CacheState) (k : TokenKey) (r : ComputeResult) :
    CacheState :=
  match st.inflight k with
  | none => st
  | some ws =>
      let st1 : CacheState :=
        { st with
            inflight := fun q => if q = k then none else st.inflight q
            delivered := ws.map (fun c => (c, r)) ++ st.delivered }
      match r with
      | Except.ok p =>
          { st1 with
              entries := fun q =>
                if q = k then some { principal := p, expiresAt := p.base.expiry }
                else st1.entries q }
      | Except.error _ => st1

/-- The state after `cs` callers arrive for key `k` at time `now` and the
in-flight computation then finishes successfully with principal `p`. -/
def CacheState.singleFlightRun (st : CacheState) (cs : List CallerId) (k : TokenKey)
    (now : Nat) (p : ClaimsPrincipal) : CacheState :=
  (cs.foldl (fun s c => s.getOrComputeArrive c k now) st).computeFinished k (Except.ok p)

/-! ### Cache step lemmas -/

lemma getOrComputeArrive_start (st : CacheState) (c : CallerId) (k : TokenKey) (now : Nat)
    (he : st.entries k = none) (hi : st.inflight k = none) :
    st.getOrComputeArrive c k now =
      { st with
          inflight := fun q => if q = k then some [c] else st.inflight q
          computeCount := fun q => if q = k then st.computeCount q + 1 else st.computeCount q } := by
  simp [CacheState.getOrComputeArrive, CacheState.startOrJoin, he, hi]

lemma getOrComputeArrive_join (st : CacheState) (c : CallerId) (k : TokenKey) (now : Nat)
    (ws : List CallerId) (he : st.entries k = none) (hi : st.inflight k = some ws) :
    st.getOrComputeArrive c k now =
      { st with inflight := fun q => if q = k then some (c :: ws) else st.inflight q } := by
  simp [CacheState.getOrComputeArrive, CacheState.startOrJoin, he, hi]

lemma computeFinished_ok (st : CacheState) (k : TokenKey) (p : ClaimsPrincipal)
    (ws : List CallerId) (hi : st.inflight k = some ws) :
    (st.computeFinished k (Except.ok p)).computeCount = st.computeCount ∧
    (st.computeFinished k (Except.ok p)).delivered
        = ws.map (fun c => (c, Except.ok p)) ++ st.delivered ∧
    (st.computeFinished k (Except.ok p)).entries k
        = some { principal := p, expiresAt := p.base.expiry } ∧
    (st.computeFinished k (Except.ok p)).inflight k = none := by
  simp [CacheState.computeFinished, hi]

/-- While a computation is in flight for `k` and no entry exists, every
further arrival for `k` only joins the waiters: the compute count and the
delivered results are untouched, and all arrivals end up waiting. -/
lemma foldl_arrive_joins (cs : List CallerId) (st : CacheState) (k : TokenKey) (now : Nat)
    (ws : List CallerId) (he : st.entries k = none) (hi : st.inflight k = some ws) :
    ∃ ws',
      (cs.foldl (fun s c => s.getOrComputeArrive c k now) st).entries k = none ∧
      (cs.foldl (fun s c => s.getOrComputeArrive c k now) st).inflight k = some ws' ∧
      (∀ c ∈ ws, c ∈ ws') ∧ (∀ c ∈ cs, c ∈ ws') ∧
      (cs.foldl (fun s c => s.getOrComputeArrive c k now) st).computeCount = st.computeCount ∧
      (cs.foldl (fun s c => s.getOrComputeArrive c k now) st).delivered = st.delivered := by
  induction cs generalizing st ws with
  | nil =>
      exact ⟨ws, he, hi, fun c hc => hc, fun c hc => absurd hc (List.not_mem_nil c), rfl, rfl⟩
  | cons c0 rest ih =>
      rw [List.foldl_cons, getOrComputeArrive_join st c0 k now ws he hi]
      have he1 : ({ st with inflight := fun q => if q = k then some (c0 :: ws) else st.inflight q } :
          CacheState).entries k = none := he
      have hi1 : ({ st with inflight := fun q => if q = k then some (c0 :: ws) else st.inflight q } :
          CacheState).inflight k = some (c0 :: ws) := by simp
      obtain ⟨ws', h1, h2, h3, h4, h5, h6⟩ := ih _ (c0 :: ws) he1 hi1
      refine ⟨ws', h1, h2, ?_, ?_, h5, h6⟩
      · exact fun c hc => h3 c (List.mem_cons_of_mem c0 hc)
      · intro c hc
        rcases List.mem_cons.mp hc with hceq | hcr
        · exact hceq ▸ h3 c0 (List.mem_cons_self c0 ws)
        · exact h4 c hcr

/-- A principal used to instantiate the cache scenarios on concrete data. -/
def samplePrincipal : ClaimsPrincipal :=
  { base :=
      { subject := "user1"
        scopes := ["openid", "profile"]
        expiry := 1000
        issuer := "https://login.example"
        audience := "api.example" }
    custom := { accessibleResources := [1, 3] } }

/-- C1: for every set of N concurrent calls to `ClaimsCache.getOrCompute`
with the same token key while no live cache entry exists, the compute
function executes exactly once, and all N calls return the identical
`ClaimsPrincipal` value. -/
theorem claimsCache_single_flight (cs : List CallerId) (k : TokenKey) (now : Nat)
    (st : CacheState) (p : ClaimsPrincipal)
    (he : st.entries k = none) (hi : st.inflight k = none) (hcs : cs ≠ []) :
    (st.singleFlightRun cs k now p).computeCount k = st.computeCount k + 1 ∧
    ∀ c ∈ cs, (c, Except.ok p) ∈ (st.singleFlightRun cs k now p).delivered := by
  obtain ⟨c0, rest, rfl⟩ := List.exists_cons_of_ne_nil hcs
  unfold CacheState.singleFlightRun
  rw [List.foldl_cons, getOrComputeArrive_start st c0 k now he hi]
  obtain ⟨ws', h1, h2, h3, h4, h5, h6⟩ :=
    foldl_arrive_joins rest
      { st with
          inflight := fun q => if q = k then some [c0] else st.inflight q
          computeCount := fun q => if q = k then st.computeCount q + 1 else st.computeCount q }
      k now [c0] he (by simp)
  obtain ⟨hc1, hc2, hc3, hc4⟩ := computeFinished_ok _ k p ws' h2
  constructor
  · rw [hc1, h5]
    simp
  · intro c hc
    rw [hc2, h6]
    refine List.mem_append_left _ ?_
    refine List.mem_map.mpr ⟨c, ?_, rfl⟩
    rcases List.mem_cons.mp hc with hceq | hcr
    · exact hceq ▸ h3 c0 (List.mem_cons_self c0 [])
    · exact h4 c hcr

/-- Witness for C1: three concurrent callers on an empty cache lead to one
compute invocation and caller 2 receives the shared principal. -/
theorem claimsCache_single_flight_witness :
    (CacheState.init.singleFlightRun [1, 2, 3] "tokenhash" 0 samplePrincipal).computeCount "tokenhash"
        = CacheState.init.computeCount "tokenhash" + 1 ∧
    (2, Except.ok samplePrincipal)
        ∈ (CacheState.init.singleFlightRun [1, 2, 3] "tokenhash" 0 samplePrincipal).delivered :=
  ⟨(claimsCache_single_flight [1, 2, 3] "tokenhash" 0 CacheState.init samplePrincipal
      rfl rfl (by simp)).1,
   (claimsCache_single_flight [1, 2, 3] "tokenhash" 0 CacheState.init samplePrincipal
      rfl rfl (by simp)).2 2 (by simp)⟩

/-- C2: an entry whose token expiry lies before `now` is never returned:
the arriving call delivers nothing from the cache, removes the expired
entry, starts the compute function when none is in flight, and in every
case ends up waiting on a recomputation. -/
theorem claimsCache_expired_entry_recomputes (st : CacheState) (c : CallerId) (k : TokenKey)
    (now : Nat) (e : CacheEntry)
    (he : st.entries k = some e) (hstored : e.expiresAt = e.principal.base.expiry)
    (hexp : e.principal.base.expiry < now) :
    (st.getOrComputeArrive c k now).delivered = st.delivered ∧
    (st.getOrComputeArrive c k now).entries k = none ∧
    (st.inflight k = none →
        (st.getOrComputeArrive c k now).computeCount k = st.computeCount k + 1) ∧
    ∃ ws, (st.getOrComputeArrive c k now).inflight k = some ws ∧ c ∈ ws := by
  have hnot : ¬ now ≤ e.expiresAt := by
    rw [hstored]
    omega
  cases hik : st.inflight k with
  | none =>
      refine ⟨?_, ?_, ?_, ⟨[c], ?_, ?_⟩⟩ <;>
        simp [CacheState.getOrComputeArrive, CacheState.startOrJoin, he, hnot, hik]
  | some ws =>
      refine ⟨?_, ?_, ?_, ⟨c :: ws, ?_, ?_⟩⟩ <;>
        simp [CacheState.getOrComputeArrive, CacheState.startOrJoin, he, hnot, hik]

/-- A cache holding a single entry for key `tk` that expires at the token
expiry of `samplePrincipal`, with nothing in flight. -/
def expiredEntryState : CacheState :=
  { entries := fun q =>
      if q = "tk" then
        some { principal := samplePrincipal, expiresAt := samplePrincipal.base.expiry }
      else none
    inflight := fun _ => none
    computeCount := fun _ => 0
    delivered := [] }

/-- Witness for C2: at time 1001, past the stored expiry 1000, the entry is
removed and a recomputation is started. -/
theorem claimsCache_expired_entry_recomputes_witness :
    (expiredEntryState.getOrComputeArrive 7 "tk" 1001).entries "tk" = none ∧
    (expiredEntryState.getOrComputeArrive 7 "tk" 1001).computeCount "tk"
        = expiredEntryState.computeCount "tk" + 1 :=
  ⟨(claimsCache_expired_entry_recomputes expiredEntryState 7 "tk" 1001
      { principal := samplePrincipal, expiresAt := samplePrincipal.base.expiry }
      rfl rfl (by decide)).2.1,
   (claimsCache_expired_entry_recomputes expiredEntryState 7 "tk" 1001
      { principal := samplePrincipal, expiresAt := samplePrincipal.base.expiry }
      rfl rfl (by decide)).2.2.1 rfl⟩

/-- C3: a failed computation is never cached: the entry map at the key is
unchanged, the error is propagated to every waiter, the in-flight slot is
cleared, and the next call with the same key invokes the compute function
again from scratch. -/
theorem claimsCache_failure_not_cached (st : CacheState) (k : TokenKey) (err : ApiError)
    (ws : List CallerId) (hi : st.inflight k = some ws) (he : st.entries k = none) :
    (st.computeFinished k (Except.error err)).entries k = st.entries k ∧
    (∀ c ∈ ws, (c, Except.error err) ∈ (st.computeFinished k (Except.error err)).delivered) ∧
    (st.computeFinished k (Except.error err)).inflight k = none ∧
    ∀ c' now,
      ((st.computeFinished k (Except.error err)).getOrComputeArrive c' k now).computeCount k
        = (st.computeFinished k (Except.error err)).computeCount k + 1 := by
  have hfin : st.computeFinished k (Except.error err) =
      { st with
          inflight := fun q => if q = k then none else st.inflight q
          delivered := ws.map (fun c => (c, Except.error err)) ++ st.delivered } := by
    simp [CacheState.computeFinished, hi]
  refine ⟨?_, ?_, ?_, ?_⟩
  · rw [hfin]
  · intro c hc
    rw [hfin]
    exact List.mem_append_left _ (List.mem_map.mpr ⟨c, hc, rfl⟩)
  · rw [hfin]
    simp
  · intro c' now
    have he2 : (st.computeFinished k (Except.error err)).entries k = none := by
      rw [hfin]
      exact he
    have hi2 : (st.computeFinished k (Except.error err)).inflight k = none := by
      rw [hfin]
      simp
    rw [getOrComputeArrive_start _ c' k now he2 hi2]
    simp

/-- A cache with one in-flight computation for key `tk` awaited by callers
4 and 5, and no completed entry. -/
def inflightFailureState : CacheState :=
  { entries := fun _ => none
    inflight := fun q => if q = "tk" then some [4, 5] else none
    computeCount := fun _ => 1
    delivered := [] }

/-- The classified failure of a custom-claims computation. -/
def sampleClaimsError : ApiError :=
  { statusCode := 500, errorCode := ErrorCodes.claimsFailure }

/-- Witness for C3: the failure is handed to waiter 4 and a later call for
the same key starts the compute function again. -/
theorem claimsCache_failure_not_cached_witness :
    (4, Except.error sampleClaimsError)
        ∈ (inflightFailureState.computeFinished "tk" (Except.error sampleClaimsError)).delivered ∧
    ((inflightFailureState.computeFinished "tk"
        (Except.error sampleClaimsError)).getOrComputeArrive 9 "tk" 50).computeCount "tk"
      = (inflightFailureState.computeFinished "tk"
          (Except.error sampleClaimsError)).computeCount "tk" + 1 :=
  ⟨(claimsCache_failure_not_cached inflightFailureState "tk" sampleClaimsError [4, 5]
      rfl rfl).2.1 4 (by simp),
   (claimsCache_failure_not_cached inflightFailureState "tk" sampleClaimsError [4, 5]
      rfl rfl).2.2.2 9 50⟩

/-! ## IssuerMetadata signing keys (spec section 4.1) -/

/-- Modelled from the spec: one entry of the signing key set held by
IssuerMetadata (source file not among the sources given). -/
structure SigningKey where
  keyId : String
  publicKey : String
  algorithm : String
  deriving DecidableEq

/-- Look a key up in the key set by its key id. -/
def findSigningKey (keys : List SigningKey) (kid : String) : Option SigningKey :=
  keys.find? (fun sk => sk.keyId == kid)

/-- The classified failure of a signing key set refresh after a key-id
miss, with the code from the `ErrorCodes` constants. -/
def signingKeyDownloadError : ApiError :=
  { statusCode := 500, errorCode := ErrorCodes.signingKeyDownloadFailure }

/-- The observable outcome of `IssuerMetadata.getSigningKey`: the result,
how many key set refreshes were performed, and the key set held
afterwards. -/
structure GetSigningKeyOutcome where
  result : Except ApiError SigningKey
  refreshCount : Nat
  keysAfter : List SigningKey

/-- Modelled from the spec: `IssuerMetadata.getSigningKey(keyId)` (source
file not among the sources given) returns the matching key from the held
key set `keys`; if absent, it performs one refresh that wholesale replaces
the key set by the freshly downloaded `fetched` and retries the lookup
once; if still absent it fails with `SigningKeyDownloadFailure`. -/
def IssuerMetadata.getSigningKey (keys : List SigningKey) (kid : String)
    (fetched : List SigningKey) : GetSigningKeyOutcome :=
  match findSigningKey keys kid with
  | some sk => { result := Except.ok sk, refreshCount := 0, keysAfter := keys }
  | none =>
      match findSigningKey fetched kid with
      | some sk => { result := Except.ok sk, refreshCount := 1, keysAfter := fetched }
      | none =>
          { result := Except.error signingKeyDownloadError
            refreshCount := 1
            keysAfter := fetched }

/-- C4: a `getSigningKey` call with a key id absent from the current key
set performs exactly one refresh (which replaces the key set) and retries
the lookup exactly once against the refreshed set; if the key is still
absent, the call fails with the `signing_key_download` error code. -/
theorem getSigningKey_miss_refreshes_once (keys fetched : List SigningKey) (kid : String)
    (h : findSigningKey keys kid = none) :
    (IssuerMetadata.getSigningKey keys kid fetched).refreshCount = 1 ∧
    (IssuerMetadata.getSigningKey keys kid fetched).keysAfter = fetched ∧
    (findSigningKey fetched kid = none →
        (IssuerMetadata.getSigningKey keys kid fetched).result
          = Except.error { statusCode := 500, errorCode := "signing_key_download" }) ∧
    ∀ sk, findSigningKey fetched kid = some sk →
        (IssuerMetadata.getSigningKey keys kid fetched).result = Except.ok sk := by
  cases hf : findSigningKey fetched kid with
  | none =>
      refine ⟨?_, ?_, ?_, ?_⟩ <;>
        simp [IssuerMetadata.getSigningKey, signingKeyDownloadError,
          ErrorCodes.signingKeyDownloadFailure, h, hf]
  | some sk =>
      refine ⟨?_, ?_, ?_, ?_⟩ <;>
        simp [IssuerMetadata.getSigningKey, h, hf]

/-- Witness for C4: with held key `a` and a refreshed set holding only key
`b`, looking up `c` refreshes once and fails with `signing_key_download`,
while looking up `b` succeeds after the single refresh. -/
theorem getSigningKey_miss_refreshes_once_witness :
    (IssuerMetadata.getSigningKey [{ keyId := "a", publicKey := "pkA", algorithm := "RS256" }]
        "c" [{ keyId := "b", publicKey := "pkB", algorithm := "RS256" }]).refreshCount = 1 ∧
    (IssuerMetadata.getSigningKey [{ keyId := "a", publicKey := "pkA", algorithm := "RS256" }]
        "c" [{ keyId := "b", publicKey := "pkB", algorithm := "RS256" }]).result
      = Except.error { statusCode := 500, errorCode := "signing_key_download" } ∧
    (IssuerMetadata.getSigningKey [{ keyId := "a", publicKey := "pkA", algorithm := "RS256" }]
        "b" [{ keyId := "b", publicKey := "pkB", algorithm := "RS256" }]).result
      = Except.ok { keyId := "b", publicKey := "pkB", algorithm := "RS256" } :=
  ⟨(getSigningKey_miss_refreshes_once [{ keyId := "a", publicKey := "pkA", algorithm := "RS256" }]
      [{ keyId := "b", publicKey := "pkB", algorithm := "RS256" }] "c" rfl).1,
   (getSigningKey_miss_refreshes_once [{ keyId := "a", publicKey := "pkA", algorithm := "RS256" }]
      [{ keyId := "b", publicKey := "pkB", algorithm := "RS256" }] "c" rfl).2.2.1 rfl,
   (getSigningKey_miss_refreshes_once [{ keyId := "a", publicKey := "pkA", algorithm := "RS256" }]
      [{ keyId := "b", publicKey := "pkB", algorithm := "RS256" }] "b" rfl).2.2.2
      { keyId := "b", publicKey := "pkB", algorithm := "RS256" } rfl⟩

/-- C5: `toResponseFormat` yields a body of exactly `{code, message}` for a
freshly constructed error, on which `setExceptionDetails` was never called,
and yields additionally `{id, area, utcTime}` exactly when
`setExceptionDetails` supplied `id > 0`, a non-empty area and a non-empty
utcTime. -/
theorem clientError_response_correlation (sc : Nat) (ec msg area utc : String) (i : Int) :
    (ClientError.create sc ec msg).toResponseFormat
        = { code := ec, message := msg, id := none, area := none, utcTime := none } ∧
    ((ClientError.create sc ec msg).setExceptionDetails area i utc).toResponseFormat
        = if 0 < i ∧ 0 < area.length ∧ 0 < utc.length then
            { code := ec, message := msg, id := some i, area := some area, utcTime := some utc }
          else
            { code := ec, message := msg, id := none, area := none, utcTime := none } := by
  constructor
  · simp [ClientError.create, ClientError.toResponseFormat]
  · rfl

/-- C10: the status code, error code and message of a `ClientError` are
fixed at construction: `getStatusCode` returns the constructor argument,
and neither `setExceptionDetails` nor the `LogContext` setter changes the
status code, the error code or the message. -/
theorem clientError_identity_fixed (sc : Nat) (ec msg area utc ctx : String) (i : Int)
    (e : ClientError) :
    (ClientError.create sc ec msg).getStatusCode = sc ∧
    (ClientError.create sc ec msg).errorCode = ec ∧
    (ClientError.create sc ec msg).message = msg ∧
    (e.setExceptionDetails area i utc).getStatusCode = e.getStatusCode ∧
    (e.setExceptionDetails area i utc).errorCode = e.errorCode ∧
    (e.setExceptionDetails area i utc).message = e.message ∧
    (e.setLogContext ctx).getStatusCode = e.getStatusCode ∧
    (e.setLogContext ctx).errorCode = e.errorCode ∧
    (e.setLogContext ctx).message = e.message :=
  ⟨rfl, rfl, rfl, rfl, rfl, rfl, rfl, rfl, rfl⟩

/-- C9: `Router.getCompanyTransactions` throws the 400 `invalid_company_id`
`ClientError` exactly when `parseInt(id, 10)` is `NaN` or at most 0; in the
throwing case the company service is never called, and any id string whose
parsed value is positive is passed to the service, including `"3.5"`, which
parses (truncated) to 3. -/
theorem getCompanyTransactions_validation (s : String) :
    invalidCompanyIdError.getStatusCode = 400 ∧
    invalidCompanyIdError.errorCode = "invalid_company_id" ∧
    ((Router.getCompanyTransactions s).result = Except.error invalidCompanyIdError ↔
        jsParseInt10 s = none ∨ ∃ v, jsParseInt10 s = some v ∧ v ≤ 0) ∧
    ((Router.getCompanyTransactions s).result = Except.error invalidCompanyIdError →
        (Router.getCompanyTransactions s).serviceCalls = []) ∧
    (∀ v : Int, jsParseInt10 s = some v → 0 < v →
        (Router.getCompanyTransactions s).serviceCalls = [v]) ∧
    jsParseInt10 "3.5" = some 3 := by
  refine ⟨rfl, rfl, ?_⟩
  have h35 : jsParseInt10 "3.5" = some 3 := by rfl
  cases h : jsParseInt10 s with
  | none =>
      refine ⟨?_, ?_, ?_, h35⟩
      · simp [Router.getCompanyTransactions, h]
      · intro _
        simp [Router.getCompanyTransactions, h]
      · intro v hv hpos
        exact Option.noConfusion hv
  | some v =>
      by_cases hv : v ≤ 0
      · refine ⟨?_, ?_, ?_, h35⟩
        · simp [Router.getCompanyTransactions, h, hv]
        · intro _
          simp [Router.getCompanyTransactions, h, hv]
        · intro v' hv' hpos
          cases Option.some.inj hv'
          omega
      · refine ⟨?_, ?_, ?_, h35⟩
        · simp [Router.getCompanyTransactions, h, hv]
        · intro hres
          simp [Router.getCompanyTransactions, h, hv] at hres
        · intro v' hv' hpos
          cases Option.some.inj hv'
          simp [Router.getCompanyTransactions, h, hv]

/-- Witness for C9: id `"0"` is rejected before the service is called,
while id `"3.5"` is truncated to 3 and passed to the service. -/
theorem getCompanyTransactions_validation_witness :
    (Router.getCompanyTransactions "0").serviceCalls = [] ∧
    (Router.getCompanyTransactions "3.5").serviceCalls = [3] :=
  ⟨(getCompanyTransactions_validation "0").2.2.2.1 (by rfl),
   (getCompanyTransactions_validation "3.5").2.2.2.2.1 3 (by rfl) (by decide)⟩

/-! ## Router construction, initialization and the authorization handler
(from router.ts) -/

/-- The OAuth section of the API configuration handed to the `Router`
constructor and passed on to `ClaimsCache` and `IssuerMetadata`. -/
structure OAuthConfiguration where
  authority : String
  requiredAudience : String
  deriving DecidableEq

/-- The API configuration object `apiConfig`. -/
structure Configuration where
  oauth : OAuthConfiguration
  deriving DecidableEq

/-- Modelled from the spec: the issuer metadata held after a successful
discovery-document load (the IssuerMetadata source file is not among the
sources given). -/
structure IssuerMetadataLoaded where
  issuerUri : String
  jwksUri : String
  deriving DecidableEq

/-- The `ClaimsCache` object constructed by the `Router` constructor from
the OAuth configuration, holding the mutable cache state. -/
structure ClaimsCacheObj where
  config : OAuthConfiguration
  state : CacheState

/-- `new ClaimsCache(apiConfig.oauth)`: an empty cache. -/
def ClaimsCacheObj.create (cfg : OAuthConfiguration) : ClaimsCacheObj :=
  { config := cfg, state := CacheState.init }

/-- The `IssuerMetadata` object constructed by the `Router` constructor,
holding the configuration and the metadata once loaded. -/
structure IssuerMetadataObj where
  config : OAuthConfiguration
  metadata : Option IssuerMetadataLoaded
  deriving DecidableEq

/-- `new IssuerMetadata(apiConfig.oauth)`: nothing loaded yet. -/
def IssuerMetadataObj.create (cfg : OAuthConfiguration) : IssuerMetadataObj :=
  { config := cfg, metadata := none }

/-- Modelled from the spec: `IssuerMetadata.load()` (source file not among
the sources given) fetches the discovery document; on success it stores the
metadata, and if the document cannot be retrieved or parsed it fails with
`MetadataLookupFailure`.  The network outcome is the `fetch` argument. -/
def IssuerMetadata.load (fetch : Option IssuerMetadataLoaded) :
    Except ApiError IssuerMetadataLoaded :=
  match fetch with
  | some m => Except.ok m
  | none => Except.error { statusCode := 500, errorCode := ErrorCodes.metadataLookupFailure }

/-- The state of a `Router` instance: the configuration and the two
collaborators built in its constructor. -/
structure RouterState where
  apiConfig : Configuration
  claimsCache : ClaimsCacheObj
  issuerMetadata : IssuerMetadataObj

/-- The `Router` constructor: stores the configuration and constructs the
`ClaimsCache` and the `IssuerMetadata` from `apiConfig.oauth`. -/
def Router.create (apiConfig : Configuration) : RouterState :=
  { apiConfig := apiConfig
    claimsCache := ClaimsCacheObj.create apiConfig.oauth
    issuerMetadata := IssuerMetadataObj.create apiConfig.oauth }

/-- `Router.initialize()`: awaits `issuerMetadata.load()` and does nothing
else; a load failure propagates out of `initialize`. -/
def Router.initialize (r : RouterState) (fetch : Option IssuerMetadataLoaded) :
    Except ApiError RouterState :=
  match IssuerMetadata.load fetch with
  | Except.ok m =>
      Except.ok { r with issuerMetadata := { r.issuerMetadata with metadata := some m } }
  | Except.error e => Except.error e

/-- The request object seen by the middleware: the `Authorization` header
and the `params.id` route parameter. -/
structure ApiRequest where
  authorizationHeader : Option String
  paramsId : String
  deriving DecidableEq

/-- The `Authenticator` constructed on every request from
`apiConfig.oauth` and `issuerMetadata.issuer`. -/
structure Authenticator where
  config : OAuthConfiguration
  issuer : Option IssuerMetadataLoaded

/-- The `SampleCustomClaimsProvider` constructed on every request; it
carries no fields and so no state between calls. -/
structure SampleCustomClaimsProvider where

/-- The `Authorizer` constructed on every request from the router's
`ClaimsCache` and the per-request `Authenticator` and provider. -/
structure Authorizer where
  claimsCache : ClaimsCacheObj
  authenticator : Authenticator
  customClaimsProvider : SampleCustomClaimsProvider

/-- Lines 48-51 of `router.ts`: the authorization-related classes created
on every API request, from the router's fields alone. -/
def Router.buildRequestObjects (r : RouterState) : Authorizer :=
  let authenticator : Authenticator :=
    { config := r.apiConfig.oauth, issuer := r.issuerMetadata.metadata }
  let customClaimsProvider : SampleCustomClaimsProvider := {}
  { claimsCache := r.claimsCache
    authenticator := authenticator
    customClaimsProvider := customClaimsProvider }

/-- The observable outcome of `Router.authorizationHandler`: the result,
the final `response.locals.claims`, and — when `next()` was invoked — the
locals that were in place at the moment of the invocation. -/
structure AuthorizationHandlerOutcome where
  result : Except ApiError Unit
  localsClaims : Option ClaimsPrincipal
  nextCalledWith : Option (Option ClaimsPrincipal)

/-- `Router.authorizationHandler`: awaits
`authorizer.authorizeRequestAndGetClaims(request)`; on success it sets
`response.locals.claims` and then calls `next()`; a failure propagates and
neither the locals nor `next()` are touched. -/
def Router.authorizationHandler
    (authorize : ApiRequest → Except ApiError ClaimsPrincipal)
    (request : ApiRequest) (locals : Option ClaimsPrincipal) :
    AuthorizationHandlerOutcome :=
  match authorize request with
  | Except.error e =>
      { result := Except.error e, localsClaims := locals, nextCalledWith := none }
  | Except.ok claims =>
      { result := Except.ok ()
        localsClaims := some claims
        nextCalledWith := some (some claims) }

/-- A configuration used to instantiate the router scenarios. -/
def sampleConfig : Configuration :=
  { oauth := { authority := "https://login.example", requiredAudience := "api.example" } }

/-- Metadata as held after a successful discovery-document load. -/
def sampleMetadata : IssuerMetadataLoaded :=
  { issuerUri := "https://login.example", jwksUri := "https://login.example/jwks" }

/-- A request carrying a bearer token. -/
def sampleRequest : ApiRequest :=
  { authorizationHeader := some "Bearer abc", paramsId := "1" }

/-- The classified 401 failure of token validation. -/
def invalidTokenError : ApiError :=
  { statusCode := 401, errorCode := "invalid_token" }

/-- C6: `Router.initialize` performs exactly the one-time issuer metadata
load and nothing else: on a failed load the `MetadataLookupFailure` error
propagates out of `initialize`, and on success the only change to the
router is the stored metadata. -/
theorem router_initialize_loads_metadata_only (r : RouterState)
    (fetch : Option IssuerMetadataLoaded) :
    (fetch = none →
        Router.initialize r fetch
          = Except.error { statusCode := 500, errorCode := ErrorCodes.metadataLookupFailure }) ∧
    ∀ m, fetch = some m →
      Router.initialize r fetch
        = Except.ok { r with issuerMetadata := { r.issuerMetadata with metadata := some m } } := by
  constructor
  · intro hf
    subst hf
    rfl
  · intro m hf
    subst hf
    rfl

/-- Witness for C6: a failed discovery fetch fails `initialize` with the
`metadata_lookup_failure` code; a successful fetch stores the metadata. -/
theorem router_initialize_loads_metadata_only_witness :
    Router.initialize (Router.create sampleConfig) none
        = Except.error { statusCode := 500, errorCode := ErrorCodes.metadataLookupFailure } ∧
    Router.initialize (Router.create sampleConfig) (some sampleMetadata)
        = Except.ok { Router.create sampleConfig with
            issuerMetadata :=
              { (Router.create sampleConfig).issuerMetadata with
                  metadata := some sampleMetadata } } :=
  ⟨(router_initialize_loads_metadata_only (Router.create sampleConfig) none).1 rfl,
   (router_initialize_loads_metadata_only (Router.create sampleConfig)
      (some sampleMetadata)).2 sampleMetadata rfl⟩

/-- C7: when `authorizeRequestAndGetClaims` succeeds the handler attaches
the returned claims to `response.locals.claims` and only then calls
`next()`; when it fails the claims are not attached, `next()` is not
called, and the error propagates. -/
theorem authorizationHandler_claims_attachment
    (authorize : ApiRequest → Except ApiError ClaimsPrincipal) (request : ApiRequest)
    (locals : Option ClaimsPrincipal) :
    (∀ claims, authorize request = Except.ok claims →
        (Router.authorizationHandler authorize request locals).localsClaims = some claims ∧
        (Router.authorizationHandler authorize request locals).nextCalledWith
          = some (some claims) ∧
        (Router.authorizationHandler authorize request locals).result = Except.ok ()) ∧
    ∀ e, authorize request = Except.error e →
      (Router.authorizationHandler authorize request locals).result = Except.error e ∧
      (Router.authorizationHandler authorize request locals).localsClaims = locals ∧
      (Router.authorizationHandler authorize request locals).nextCalledWith = none := by
  constructor
  · intro claims h
    refine ⟨?_, ?_, ?_⟩ <;> simp [Router.authorizationHandler, h]
  · intro e h
    refine ⟨?_, ?_, ?_⟩ <;> simp [Router.authorizationHandler, h]

/-- Witness for C7: a succeeding authorizer attaches the principal; a
failing one leaves `next()` uncalled. -/
theorem authorizationHandler_claims_attachment_witness :
    (Router.authorizationHandler (fun _ => Except.ok samplePrincipal)
        sampleRequest none).localsClaims = some samplePrincipal ∧
    (Router.authorizationHandler (fun _ => Except.error invalidTokenError)
        sampleRequest none).nextCalledWith = none :=
  ⟨((authorizationHandler_claims_attachment (fun _ => Except.ok samplePrincipal)
      sampleRequest none).1 samplePrincipal rfl).1,
   ((authorizationHandler_claims_attachment (fun _ => Except.error invalidTokenError)
      sampleRequest none).2 invalidTokenError rfl).2.2⟩

/-- C8: the `Router` constructor builds its `ClaimsCache` and
`IssuerMetadata` exactly once; every request's authorization objects use
exactly those two, and the per-request `Authorizer`, `Authenticator` and
provider are built afresh from the router's fields alone, so they hold no
state between calls: routers agreeing on those fields build identical
request objects. -/
theorem router_collaborators_once (cfg : Configuration) (r1 r2 : RouterState)
    (hc : r1.claimsCache = r2.claimsCache) (hm : r1.issuerMetadata = r2.issuerMetadata)
    (ha : r1.apiConfig = r2.apiConfig) :
    (Router.create cfg).claimsCache = ClaimsCacheObj.create cfg.oauth ∧
    (Router.create cfg).issuerMetadata = IssuerMetadataObj.create cfg.oauth ∧
    (∀ r : RouterState, (Router.buildRequestObjects r).claimsCache = r.claimsCache) ∧
    (∀ r : RouterState, (Router.buildRequestObjects r).authenticator
        = { config := r.apiConfig.oauth, issuer := r.issuerMetadata.metadata }) ∧
    Router.buildRequestObjects r1 = Router.buildRequestObjects r2 := by
  refine ⟨rfl, rfl, fun r => rfl, fun r => rfl, ?_⟩
  simp [Router.buildRequestObjects, hc, hm, ha]

/-- Witness for C8: the freshly constructed router carries the cache built
from its configuration and builds its request objects deterministically. -/
theorem router_collaborators_once_witness :
    (Router.create sampleConfig).claimsCache = ClaimsCacheObj.create sampleConfig.oauth ∧
    Router.buildRequestObjects (Router.create sampleConfig)
        = Router.buildRequestObjects (Router.create sampleConfig) :=
  ⟨(router_collaborators_once sampleConfig (Router.create sampleConfig)
      (Router.create sampleConfig) rfl rfl rfl).1,
   (router_collaborators_once sampleConfig (Router.create sampleConfig)
      (Router.create sampleConfig) rfl rfl rfl).2.2.2.2⟩

